import Mathlib

/-!
Shallow embedding of the six tool functions of `src/tools.py` (a voice-assistant
tool layer: weather lookup, web search, email sending, AI image generation,
code generation, essay writing).

Modelling conventions:
* Outcomes of external calls (HTTP transport, SMTP session, the image-generation
  SDK call, base64 decoding) are explicit parameters of type `Except PyExc _`;
  `Except.error` models the Python call raising an exception.
* A tool's own Python-level `try`/`except` structure is embedded directly: the
  tool's result has type `Except PyExc _`, where `Except.error` would mean an
  exception escaped the tool's boundary.
* `generate_ai_image`'s result type is `Except PyExc (Option String)`: the
  `none` value models the Python function falling off the end and returning
  `None` instead of a string (its final `if`/`elif` has no `else`).
* Side effects are recorded in the returned `ToolResult`: outbound HTTP
  requests (with their explicit-timeout argument), SMTP connection attempts,
  image-generation API calls, directories created and files written.
  Filesystem operations (`os.makedirs`, file write) are modelled as succeeding.
* Python truthiness of an `Optional[str]` value (`if not x`) is `truthyOptStr`:
  `None` and the empty string are falsy.
* Python `str.strip()` is `pyStrip` (drop ASCII whitespace at both ends).
-/

/-- Python exception values that can reach the tools' `except` clauses.
`smtpAuthError` models `smtplib.SMTPAuthenticationError`, `smtpException`
models any other `smtplib.SMTPException`, and `otherError` models every other
`Exception`; the payload is the exception's `str(e)` text. -/
inductive PyExc where
  | smtpAuthError
  | smtpException (detail : String)
  | otherError (detail : String)
deriving Repr, DecidableEq

/-- Python `str(e)` for an exception value. -/
def PyExc.str : PyExc → String
  | .smtpAuthError => "SMTPAuthenticationError"
  | .smtpException detail => detail
  | .otherError detail => detail

/-- Chat-completion JSON: the `message` object of one choice. -/
structure Message where
  content : String
deriving Repr, DecidableEq

/-- Chat-completion JSON: one element of the `choices` array. -/
structure Choice where
  message : Message
deriving Repr, DecidableEq

/-- Chat-completion JSON body: `\x7bchoices:[\x7bmessage:\x7bcontent\x7d\x7d]\x7d`. -/
structure ChatCompletion where
  choices : List Choice
deriving Repr, DecidableEq

/-- An HTTP response as the tools observe it: status code, raw text body, and
the result of `response.json()` parsed as a chat completion (`none` models a
body that is not a well-formed chat-completion object, so that accessing it
raises). -/
structure HttpResponse where
  status_code : Nat
  text : String
  json : Option ChatCompletion := none
deriving Repr, DecidableEq

/-- An outbound HTTP request as constructed by a tool. `timeout` is the
explicit `timeout=` argument passed to the `requests` call (`none` when the
call passes no timeout argument). `systemContent`/`userContent` are the
contents of the system/user messages of a chat-completion payload. -/
structure HttpRequest where
  method : String
  url : String
  timeout : Option Nat := none
  systemContent : Option String := none
  userContent : Option String := none
deriving Repr, DecidableEq

/-- One element of the image-generation response's `data` array; `b64_json`
and `url` are read with `getattr(_, _, None)`. -/
structure ImageInfo where
  b64_json : Option String := none
  url : Option String := none
deriving Repr, DecidableEq

/-- The request passed to the image-generation SDK call
(`client.images.generate(...)`). `timeout` records the explicit timeout
argument; the source call passes none. -/
structure ImageGenRequest where
  prompt : String
  model : String
  steps : Nat
  n : Nat
  height : Nat
  width : Nat
  timeout : Option Nat := none
deriving Repr, DecidableEq

/-- The environment variables the tools read via `os.getenv` (`none` models an
unset variable). -/
structure Env where
  OPENROUTER_API_KEY : Option String := none
  GMAIL_USER : Option String := none
  GMAIL_APP_PASSWORD : Option String := none
  TOGETHER_API_KEY : Option String := none
deriving Repr, DecidableEq

/-- Python truthiness of an `Optional[str]`: `None` and `""` are falsy. -/
def truthyOptStr : Option String → Bool
  | none => false
  | some s => s != ""

/-- Python whitespace characters removed by `str.strip()`. -/
def isPyWS (c : Char) : Bool :=
  c == ' ' || c == '\t' || c == '\n' || c == '\r' || c == '\x0b' || c == '\x0c'

/-- Python `str.strip()`: drop whitespace at both ends. -/
def pyStrip (s : String) : String :=
  String.mk (((s.data.dropWhile isPyWS).reverse.dropWhile isPyWS).reverse)

/-- The observable outcome of one tool invocation: the Python-level result
(`Except.error` would be an exception escaping the tool; for
`generate_ai_image`, `α` is `Option String` and `none` models returning
`None`), together with the side effects performed. -/
structure ToolResult (α : Type) where
  ret : Except PyExc α
  httpRequests : List HttpRequest := []
  smtpAttempts : Nat := 0
  imageRequests : List ImageGenRequest := []
  dirsCreated : List String := []
  filesWritten : List String := []

/-- Python `requests.Response.raise_for_status()`: raises an `HTTPError` for
status codes in [400, 600). -/
def raise_for_status (r : HttpResponse) : Except PyExc Unit :=
  if 400 ≤ r.status_code ∧ r.status_code < 600 then
    Except.error (PyExc.otherError ("HTTP Error " ++ toString r.status_code))
  else
    Except.ok ()

/-- String `s` contains `sub` as a contiguous substring. -/
def strContains (s sub : String) : Prop :=
  List.IsInfix sub.data s.data

instance (s sub : String) : Decidable (strContains s sub) := by
  unfold strContains
  exact List.decidableInfix sub.data s.data

/-- The endpoint URL of the chat-completion service used by `search_web`,
`generate_code` and `write_essay`. -/
def openrouter_chat_url : String := "https://openrouter.ai/api/v1/chat/completions"

/-- The weather endpoint URL for a city (`tools.py` line 26). -/
def wttr_url (city : String) : String := "https://wttr.in/" ++ city ++ "?format=3"

/-- The strftime format used for image file names (`tools.py` line 171). -/
def timestamp_format : String := "%Y%m%d_%H%M%S"

/-- Shared response handling of the three chat-completion tools
(`tools.py` lines 67-69, 240-243 and 297-299): `response.raise_for_status()`,
`response.json()` (raises on a malformed body), then
`result["choices"][0]["message"]["content"].strip()` (raises when `choices`
is absent or empty). Only the first choice is consulted. -/
def chat_completion_first_content (net : Except PyExc HttpResponse) : Except PyExc String :=
  match net with
  | Except.error e => Except.error e
  | Except.ok response =>
    match raise_for_status response with
    | Except.error e => Except.error e
    | Except.ok _ =>
      match response.json with
      | none => Except.error (PyExc.otherError "Expecting value: line 1 column 0 (char 0)")
      | some data =>
        match data.choices with
        | [] => Except.error (PyExc.otherError "list index out of range")
        | choice :: _ => Except.ok (pyStrip choice.message.content)

/-- Embedding of `get_weather` (`tools.py` lines 23-36). `net` is the outcome
of `requests.get(f"https://wttr.in/\x7bcity\x7d?format=3")`. -/
def get_weather (city : String) (net : Except PyExc HttpResponse) : ToolResult String :=
  let req : HttpRequest := { method := "GET", url := wttr_url city }
  match net with
  | Except.error _e =>
      { ret := Except.ok ("An error occurred while retrieving weather for " ++ city ++ "."),
        httpRequests := [req] }
  | Except.ok response =>
      if response.status_code = 200 then
        { ret := Except.ok (pyStrip response.text), httpRequests := [req] }
      else
        { ret := Except.ok ("Could not retrieve weather for " ++ city ++ "."),
          httpRequests := [req] }

/-- Embedding of `search_web` (`tools.py` lines 42-73). `net` is the outcome
of the `requests.post` call. -/
def search_web (env : Env) (query : String) (net : Except PyExc HttpResponse) : ToolResult String :=
  if truthyOptStr env.OPENROUTER_API_KEY = false then
    { ret := Except.ok "OpenRouter API key not found. Please check your .env file." }
  else
    { ret :=
        match chat_completion_first_content net with
        | Except.ok s => Except.ok s
        | Except.error e => Except.ok ("Error talking to OpenRouter AI: " ++ PyExc.str e),
      httpRequests := [{ method := "POST", url := openrouter_chat_url, userContent := some query }] }

/-- Embedding of `send_email` (`tools.py` lines 79-127). `smtp` is the outcome
of the SMTP session sequence (connect, `starttls`, `login`, `sendmail`,
`quit`); `Except.error` carries the exception any of those steps raised. The
`except` clause order of the source (authentication error first, then other
SMTP errors, then any exception) matches the three `PyExc` constructors. -/
def send_email (env : Env) (to_email subject message : String) (cc_email : Option String)
    (smtp : Except PyExc Unit) : ToolResult String :=
  if truthyOptStr env.GMAIL_USER = false ∨ truthyOptStr env.GMAIL_APP_PASSWORD = false then
    { ret := Except.ok "Email sending failed: Gmail credentials not configured." }
  else
    { ret :=
        match smtp with
        | Except.ok _ => Except.ok ("Email sent successfully to " ++ to_email)
        | Except.error PyExc.smtpAuthError =>
            Except.ok "Email sending failed: Authentication error. Please check your Gmail credentials."
        | Except.error (PyExc.smtpException e) =>
            Except.ok ("Email sending failed: SMTP error - " ++ e)
        | Except.error (PyExc.otherError e) =>
            Except.ok ("An error occurred while sending email: " ++ e),
      smtpAttempts := 1 }

/-- Embedding of `generate_ai_image` (`tools.py` lines 133-198). `gen` is the
outcome of `client.images.generate(...)`: inside `Except.ok`, `none` models a
falsy response object or one without a `data` attribute, and `some l` gives
the `data` array. `decode` is the outcome of `base64.b64decode(image_base64)`
when that line is reached. `home` is `pathlib.Path.home()` and `timestamp` is
`datetime.now().strftime(timestamp_format)`. The result value `none` models
the Python function returning `None` by falling off the end. -/
def generate_ai_image (env : Env) (prompt : String)
    (gen : Except PyExc (Option (List ImageInfo))) (decode : Except PyExc Unit)
    (home : String) (timestamp : String) : ToolResult (Option String) :=
  if prompt = "" ∨ (pyStrip prompt).length < 3 then
    { ret := Except.ok (some "❌ Please provide a clear description of the image you want.") }
  else if truthyOptStr env.TOGETHER_API_KEY = false then
    { ret := Except.ok (some "❌ Together AI API key not found. Please check your .env file.") }
  else
    let req : ImageGenRequest :=
      { prompt := pyStrip prompt, model := "black-forest-labs/FLUX.1-schnell-Free",
        steps := 4, n := 1, height := 1024, width := 1024 }
    match gen with
    | Except.error e =>
        { ret := Except.ok (some ("⚠️ Image generation failed: " ++ PyExc.str e)),
          imageRequests := [req] }
    | Except.ok none =>
        { ret := Except.ok (some "❌ No image data was returned. Try a different prompt."),
          imageRequests := [req] }
    | Except.ok (some []) =>
        { ret := Except.ok (some "❌ No image data was returned. Try a different prompt."),
          imageRequests := [req] }
    | Except.ok (some (image_info :: _)) =>
        let image_base64 := image_info.b64_json
        let image_url := image_info.url
        if truthyOptStr image_base64 = false ∧ truthyOptStr image_url = false then
          { ret := Except.ok (some "❌ Image generation failed: no usable output."),
            imageRequests := [req] }
        else if truthyOptStr image_base64 = true then
          match decode with
          | Except.error e =>
              { ret := Except.ok (some ("⚠️ Image generation failed: " ++ PyExc.str e)),
                imageRequests := [req] }
          | Except.ok _ =>
              let pictures_folder := home ++ "/Pictures"
              let image_path := pictures_folder ++ "/" ++ ("ai_image_" ++ timestamp ++ ".png")
              let data_url := "data:image/png;base64," ++ image_base64.getD ""
              { ret := Except.ok (some
                  ("✅ Image generated successfully!<br>📁 Saved to: `" ++ image_path ++
                   "`<br>🖼️ Preview:<br><img src=\"" ++ data_url ++ "\" alt=\"" ++ prompt ++
                   "\" style=\"max-width:100%; border-radius:12px;\"/><br><a href=\"" ++ data_url ++
                   "\" download=\"ai_image.png\" style=\"display:inline-block;margin-top:10px;padding:8px 12px;background-color:#007bff;color:white;border-radius:6px;text-decoration:none;\">⬇ Download Image</a>")),
                imageRequests := [req],
                dirsCreated := [pictures_folder],
                filesWritten := [image_path] }
        else if truthyOptStr image_url = true then
          { ret := Except.ok (some
              ("✅ Image generated successfully via URL!<br>🖼️ Preview:<br><img src=\"" ++
               image_url.getD "" ++ "\" alt=\"" ++ prompt ++
               "\" style=\"max-width:100%; border-radius:12px;\"/><br><a href=\"" ++
               image_url.getD "" ++
               "\" download=\"ai_image.png\" style=\"display:inline-block;margin-top:10px;padding:8px 12px;background-color:#007bff;color:white;border-radius:6px;text-decoration:none;\">⬇ Download Image</a>")),
            imageRequests := [req] }
        else
          { ret := Except.ok none, imageRequests := [req] }

/-- Embedding of `generate_code` (`tools.py` lines 204-247). `net` is the
outcome of the `requests.post` call, which passes `timeout=30`. -/
def generate_code (env : Env) (prompt : String) (net : Except PyExc HttpResponse) :
    ToolResult String :=
  if truthyOptStr env.OPENROUTER_API_KEY = false then
    { ret := Except.ok "❌ Missing OpenRouter API key. Please check your .env file." }
  else
    { ret :=
        match chat_completion_first_content net with
        | Except.ok s => Except.ok s
        | Except.error e => Except.ok ("❌ Code generation failed: " ++ PyExc.str e),
      httpRequests := [{ method := "POST", url := openrouter_chat_url, timeout := some 30,
                         systemContent := some "You are a professional senior software engineer. Write complete, well-documented code for the task.",
                         userContent := some prompt }] }

/-- Embedding of `write_essay` (`tools.py` lines 253-303). `net` is the
outcome of the `requests.post` call (no timeout argument). -/
def write_essay (env : Env) (topic : String) (words : Int) (net : Except PyExc HttpResponse) :
    ToolResult String :=
  if truthyOptStr env.OPENROUTER_API_KEY = false then
    { ret := Except.ok "❌ OpenRouter API key is missing. Please check your .env file." }
  else
    let system_prompt :=
      "You are a professional academic writer. Write an original, human-sounding essay " ++
      "on the topic provided. Avoid robotic phrasing, vary sentence structures, " ++
      "and use natural transitions. Target a length of " ++ toString words ++ " words. " ++
      "The tone should mimic a well-read human student or journalist."
    let user_prompt := "Write an essay on: " ++ topic
    { ret :=
        match chat_completion_first_content net with
        | Except.ok s => Except.ok s
        | Except.error e => Except.ok ("❌ Essay generation failed: " ++ PyExc.str e),
      httpRequests := [{ method := "POST", url := openrouter_chat_url,
                         systemContent := some system_prompt, userContent := some user_prompt }] }

/-- Helper: a string built as `a ++ sub ++ b` contains `sub`. -/
theorem strContains_append (a sub b : String) : strContains (a ++ sub ++ b) sub := by
  refine ⟨a.data, b.data, ?_⟩
  simp [String.data_append]

/-- Helper: a string built as `a ++ sub` contains `sub`. -/
theorem strContains_append_right (a sub : String) : strContains (a ++ sub) sub := by
  have h := strContains_append a sub ""
  rwa [String.append_empty] at h

/-- Helper: two strings whose character lists differ at some index are different. -/
theorem string_ne_of_data_getElem_ne (s t : String) (i : Nat)
    (h : s.data[i]? ≠ t.data[i]?) : s ≠ t := by
  intro e
  exact h (by rw [e])

/-- Helper: characters before the end of the left part survive an append. -/
theorem data_getElem_append_left (a c : String) (i : Nat) (h : i < a.data.length) :
    (a ++ c).data[i]? = a.data[i]? := by
  rw [String.data_append]
  exact List.getElem?_append_left h

/-- C1: every one of the six tool functions, for every input and every outcome
of its external calls (success, non-2xx status, raised exception, malformed
response), terminates with exactly one string result and never propagates a
raised exception past the tool's boundary (for `generate_ai_image` this
includes never returning `None` by falling off the end). -/
theorem C1_tools_always_return_one_string :
    (∀ city net, ∃ s : String, (get_weather city net).ret = Except.ok s) ∧
    (∀ env query net, ∃ s : String, (search_web env query net).ret = Except.ok s) ∧
    (∀ env to_email subject message cc_email smtp,
      ∃ s : String, (send_email env to_email subject message cc_email smtp).ret = Except.ok s) ∧
    (∀ env prompt gen decode home timestamp,
      ∃ s : String,
        (generate_ai_image env prompt gen decode home timestamp).ret = Except.ok (some s)) ∧
    (∀ env prompt net, ∃ s : String, (generate_code env prompt net).ret = Except.ok s) ∧
    (∀ env topic words net, ∃ s : String, (write_essay env topic words net).ret = Except.ok s) := by
  refine ⟨?_, ?_, ?_, ?_, ?_, ?_⟩
  · intro city net
    cases net with
    | error e => exact ⟨_, rfl⟩
    | ok response =>
      unfold get_weather
      dsimp only
      split
      · exact ⟨_, rfl⟩
      · exact ⟨_, rfl⟩
  · intro env query net
    unfold search_web
    split
    · exact ⟨_, rfl⟩
    · cases hc : chat_completion_first_content net with
      | ok s => exact ⟨s, by simp [hc]⟩
      | error e => exact ⟨"Error talking to OpenRouter AI: " ++ PyExc.str e, by simp [hc]⟩
  · intro env to_email subject message cc_email smtp
    unfold send_email
    split
    · exact ⟨_, rfl⟩
    · cases smtp with
      | ok u => exact ⟨_, rfl⟩
      | error e => cases e <;> exact ⟨_, rfl⟩
  · intro env prompt gen decode home timestamp
    unfold generate_ai_image
    split
    · exact ⟨_, rfl⟩
    · split
      · exact ⟨_, rfl⟩
      · cases gen with
        | error e => exact ⟨_, rfl⟩
        | ok resp =>
          match resp with
          | none => exact ⟨_, rfl⟩
          | some [] => exact ⟨_, rfl⟩
          | some (image_info :: rest) =>
            dsimp only
            split
            · exact ⟨_, rfl⟩
            · split
              · cases decode with
                | error e => exact ⟨_, rfl⟩
                | ok u => exact ⟨_, rfl⟩
              · split
                · exact ⟨_, rfl⟩
                · rename_i hno hb64 hurl
                  exfalso
                  apply hno
                  constructor
                  · simpa using hb64
                  · simpa using hurl
  · intro env prompt net
    unfold generate_code
    split
    · exact ⟨_, rfl⟩
    · cases hc : chat_completion_first_content net with
      | ok s => exact ⟨s, by simp [hc]⟩
      | error e => exact ⟨"❌ Code generation failed: " ++ PyExc.str e, by simp [hc]⟩
  · intro env topic words net
    unfold write_essay
    split
    · exact ⟨_, rfl⟩
    · cases hc : chat_completion_first_content net with
      | ok s => exact ⟨s, by simp [hc]⟩
      | error e => exact ⟨"❌ Essay generation failed: " ++ PyExc.str e, by simp [hc]⟩

/-- C3: a prompt that is empty or shorter than 3 characters after trimming
makes `generate_ai_image` return the validation-failure message and perform no
outbound call of any kind (no image-generation call, no HTTP request, no SMTP
attempt, and no file written). -/
theorem C3_short_prompt_validation (prompt : String)
    (h : prompt = "" ∨ (pyStrip prompt).length < 3) :
    ∀ env gen decode home timestamp,
      (generate_ai_image env prompt gen decode home timestamp).ret
          = Except.ok (some "❌ Please provide a clear description of the image you want.") ∧
      (generate_ai_image env prompt gen decode home timestamp).imageRequests = [] ∧
      (generate_ai_image env prompt gen decode home timestamp).httpRequests = [] ∧
      (generate_ai_image env prompt gen decode home timestamp).smtpAttempts = 0 ∧
      (generate_ai_image env prompt gen decode home timestamp).filesWritten = [] := by
  intro env gen decode home timestamp
  unfold generate_ai_image
  rw [if_pos h]
  exact ⟨rfl, rfl, rfl, rfl, rfl⟩

/-- Witness for C3 at the prompt " a" (one character after trimming). -/
theorem C3_short_prompt_validation_witness :
    (generate_ai_image {} " a" (Except.ok none) (Except.ok ()) "/home/user" "20251012_120000").ret
        = Except.ok (some "❌ Please provide a clear description of the image you want.") ∧
    (generate_ai_image {} " a" (Except.ok none) (Except.ok ()) "/home/user" "20251012_120000").imageRequests = [] := by
  have h := C3_short_prompt_validation " a" (Or.inr (by decide)) {} (Except.ok none)
    (Except.ok ()) "/home/user" "20251012_120000"
  exact ⟨h.1, h.2.1⟩

/-- C4: `get_weather` issues exactly one GET request to the weather endpoint;
on status 200 it returns the stripped response body, and on any other status
or any raised exception it returns a fixed-shape failure string containing the
city name. -/
theorem C4_weather_contract (city : String) (net : Except PyExc HttpResponse) :
    (get_weather city net).httpRequests = [{ method := "GET", url := wttr_url city }] ∧
    (∀ resp, net = Except.ok resp → resp.status_code = 200 →
      (get_weather city net).ret = Except.ok (pyStrip resp.text)) ∧
    (∀ resp, net = Except.ok resp → resp.status_code ≠ 200 →
      (get_weather city net).ret
          = Except.ok ("Could not retrieve weather for " ++ city ++ ".") ∧
      strContains ("Could not retrieve weather for " ++ city ++ ".") city) ∧
    (∀ e, net = Except.error e →
      (get_weather city net).ret
          = Except.ok ("An error occurred while retrieving weather for " ++ city ++ ".") ∧
      strContains ("An error occurred while retrieving weather for " ++ city ++ ".") city) := by
  refine ⟨?_, ?_, ?_, ?_⟩
  · cases net with
    | error e => rfl
    | ok response =>
      unfold get_weather
      dsimp only
      split
      · rfl
      · rfl
  · intro resp hnet hst
    subst hnet
    unfold get_weather
    dsimp only
    rw [if_pos hst]
  · intro resp hnet hst
    subst hnet
    unfold get_weather
    dsimp only
    rw [if_neg hst]
    exact ⟨rfl, strContains_append _ _ _⟩
  · intro e hnet
    subst hnet
    exact ⟨rfl, strContains_append _ _ _⟩

/-- Witness for C4: a mocked 200 response whose body is " London: ☀️ +20°C "
yields exactly the trimmed body. -/
theorem C4_weather_contract_witness :
    (get_weather "London" (Except.ok { status_code := 200, text := " London: ☀️ +20°C " })).ret
      = Except.ok "London: ☀️ +20°C" := by
  have h := (C4_weather_contract "London"
      (Except.ok { status_code := 200, text := " London: ☀️ +20°C " })).2.1
    { status_code := 200, text := " London: ☀️ +20°C " } rfl rfl
  exact h.trans rfl

/-- C10: `get_weather` treats only HTTP status exactly 200 as success; for any
other status code, 201 and 204 included, it returns the fixed failure string
naming the city instead of the response body. -/
theorem C10_only_status_200_is_success (city : String) (resp : HttpResponse)
    (h : resp.status_code ≠ 200) :
    (get_weather city (Except.ok resp)).ret
      = Except.ok ("Could not retrieve weather for " ++ city ++ ".") := by
  unfold get_weather
  dsimp only
  rw [if_neg h]

/-- Witness for C10 at status 204 with a non-empty body. -/
theorem C10_only_status_200_is_success_witness :
    (get_weather "London" (Except.ok { status_code := 204, text := "body" })).ret
      = Except.ok "Could not retrieve weather for London." := by
  have h := C10_only_status_200_is_success "London" { status_code := 204, text := "body" }
    (by decide)
  exact h.trans rfl

/-- Helper: substring containment survives appending on the right. -/
theorem strContains_mono_right (s t sub : String) (h : strContains s sub) :
    strContains (s ++ t) sub := by
  obtain ⟨pre, post, hp⟩ := h
  refine ⟨pre, post ++ t.data, ?_⟩
  rw [String.data_append, ← hp]
  simp

/-- Helper: substring containment survives appending on the left. -/
theorem strContains_mono_left (s t sub : String) (h : strContains t sub) :
    strContains (s ++ t) sub := by
  obtain ⟨pre, post, hp⟩ := h
  refine ⟨s.data ++ pre, post, ?_⟩
  rw [String.data_append, ← hp]
  simp

/-- C2 counterexample: with the image credential absent and the prompt " a",
`generate_ai_image` returns the prompt-validation message (the validation
check precedes the credential check), and that message contains no
credential- or configuration-related phrase: neither "API key", "credentials",
"config", ".env" nor even "key" occurs in it. -/
theorem C2_counterexample :
    (generate_ai_image {} " a" (Except.ok none) (Except.ok ()) "/home/user" "20251012_120000").ret
        = Except.ok (some "❌ Please provide a clear description of the image you want.") ∧
    ({} : Env).TOGETHER_API_KEY = none ∧
    ¬ strContains "❌ Please provide a clear description of the image you want." "API key" ∧
    ¬ strContains "❌ Please provide a clear description of the image you want." "credentials" ∧
    ¬ strContains "❌ Please provide a clear description of the image you want." "config" ∧
    ¬ strContains "❌ Please provide a clear description of the image you want." ".env" ∧
    ¬ strContains "❌ Please provide a clear description of the image you want." "key" := by
  refine ⟨rfl, rfl, ?_, ?_, ?_, ?_, ?_⟩ <;> decide

/-- C2 (amended): for every tool that requires a credential, if the required
environment credential is absent the tool performs zero outbound network or
mail calls, and it returns a message containing a credential- or
configuration-related phrase ("API key" or "credentials") — except that
`generate_ai_image` reports prompt-validation failure first, so its
credential message is only guaranteed for prompts that pass validation. -/
theorem C2_missing_credential (env : Env) :
    (truthyOptStr env.OPENROUTER_API_KEY = false →
      ∀ query net,
        (search_web env query net).ret
            = Except.ok "OpenRouter API key not found. Please check your .env file." ∧
        strContains "OpenRouter API key not found. Please check your .env file." "API key" ∧
        (search_web env query net).httpRequests = [] ∧
        (search_web env query net).smtpAttempts = 0 ∧
        (search_web env query net).imageRequests = []) ∧
    (truthyOptStr env.OPENROUTER_API_KEY = false →
      ∀ prompt net,
        (generate_code env prompt net).ret
            = Except.ok "❌ Missing OpenRouter API key. Please check your .env file." ∧
        strContains "❌ Missing OpenRouter API key. Please check your .env file." "API key" ∧
        (generate_code env prompt net).httpRequests = [] ∧
        (generate_code env prompt net).smtpAttempts = 0 ∧
        (generate_code env prompt net).imageRequests = []) ∧
    (truthyOptStr env.OPENROUTER_API_KEY = false →
      ∀ topic words net,
        (write_essay env topic words net).ret
            = Except.ok "❌ OpenRouter API key is missing. Please check your .env file." ∧
        strContains "❌ OpenRouter API key is missing. Please check your .env file." "API key" ∧
        (write_essay env topic words net).httpRequests = [] ∧
        (write_essay env topic words net).smtpAttempts = 0 ∧
        (write_essay env topic words net).imageRequests = []) ∧
    (truthyOptStr env.GMAIL_USER = false ∨ truthyOptStr env.GMAIL_APP_PASSWORD = false →
      ∀ to_email subject message cc_email smtp,
        (send_email env to_email subject message cc_email smtp).ret
            = Except.ok "Email sending failed: Gmail credentials not configured." ∧
        strContains "Email sending failed: Gmail credentials not configured." "credentials" ∧
        (send_email env to_email subject message cc_email smtp).smtpAttempts = 0 ∧
        (send_email env to_email subject message cc_email smtp).httpRequests = [] ∧
        (send_email env to_email subject message cc_email smtp).imageRequests = []) ∧
    (truthyOptStr env.TOGETHER_API_KEY = false →
      ∀ prompt gen decode home timestamp,
        ((generate_ai_image env prompt gen decode home timestamp).imageRequests = [] ∧
         (generate_ai_image env prompt gen decode home timestamp).httpRequests = [] ∧
         (generate_ai_image env prompt gen decode home timestamp).smtpAttempts = 0 ∧
         (generate_ai_image env prompt gen decode home timestamp).filesWritten = []) ∧
        (¬ (prompt = "" ∨ (pyStrip prompt).length < 3) →
          (generate_ai_image env prompt gen decode home timestamp).ret
              = Except.ok (some "❌ Together AI API key not found. Please check your .env file.") ∧
          strContains "❌ Together AI API key not found. Please check your .env file." "API key")) := by
  refine ⟨?_, ?_, ?_, ?_, ?_⟩
  · intro h query net
    unfold search_web
    rw [if_pos h]
    exact ⟨rfl, by decide, rfl, rfl, rfl⟩
  · intro h prompt net
    unfold generate_code
    rw [if_pos h]
    exact ⟨rfl, by decide, rfl, rfl, rfl⟩
  · intro h topic words net
    unfold write_essay
    rw [if_pos h]
    exact ⟨rfl, by decide, rfl, rfl, rfl⟩
  · intro h to_email subject message cc_email smtp
    unfold send_email
    rw [if_pos h]
    exact ⟨rfl, by decide, rfl, rfl, rfl⟩
  · intro h prompt gen decode home timestamp
    by_cases hv : prompt = "" ∨ (pyStrip prompt).length < 3
    · unfold generate_ai_image
      rw [if_pos hv]
      exact ⟨⟨rfl, rfl, rfl, rfl⟩, fun hnv => absurd hv hnv⟩
    · unfold generate_ai_image
      rw [if_neg hv, if_pos h]
      exact ⟨⟨rfl, rfl, rfl, rfl⟩, fun _ => ⟨rfl, by decide⟩⟩

/-- Witness for the amended C2: each credential-requiring tool at a concrete
input with an empty environment. -/
theorem C2_missing_credential_witness :
    (search_web {} "q" (Except.ok { status_code := 200, text := "" })).ret
        = Except.ok "OpenRouter API key not found. Please check your .env file." ∧
    (generate_code {} "p" (Except.ok { status_code := 200, text := "" })).ret
        = Except.ok "❌ Missing OpenRouter API key. Please check your .env file." ∧
    (write_essay {} "t" 500 (Except.ok { status_code := 200, text := "" })).ret
        = Except.ok "❌ OpenRouter API key is missing. Please check your .env file." ∧
    (send_email {} "bob@example.com" "s" "m" none (Except.ok ())).ret
        = Except.ok "Email sending failed: Gmail credentials not configured." ∧
    (generate_ai_image {} "a cat" (Except.ok none) (Except.ok ()) "/home/user" "20251012_120000").ret
        = Except.ok (some "❌ Together AI API key not found. Please check your .env file.") := by
  have h := C2_missing_credential {}
  refine ⟨(h.1 rfl "q" _).1, (h.2.1 rfl "p" _).1, (h.2.2.1 rfl "t" 500 _).1,
    (h.2.2.2.1 (Or.inl rfl) "bob@example.com" "s" "m" none _).1,
    ((h.2.2.2.2 rfl "a cat" _ _ "/home/user" "20251012_120000").2 (by decide)).1⟩

/-- Helper: on a non-error status with a well-formed chat-completion body, the
shared response handling returns the first choice's content stripped. -/
theorem chat_completion_first_content_ok (content : String) (rest : List Choice)
    (status : Nat) (hs : status < 400) (body : String) :
    chat_completion_first_content (Except.ok
      { status_code := status, text := body,
        json := some { choices := { message := { content := content } } :: rest } })
      = Except.ok (pyStrip content) := by
  unfold chat_completion_first_content
  dsimp only
  unfold raise_for_status
  dsimp only
  rw [if_neg (show ¬ (400 ≤ status ∧ status < 600) by omega)]

/-- C5: a successful chat-completion response whose body has the shape
choices[0].message.content makes `search_web`, `generate_code` and
`write_essay` each return the first choice's message content with surrounding
whitespace stripped, whatever further choices are present (only the first
choice is consulted). -/
theorem C5_first_choice_content (env : Env)
    (hkey : truthyOptStr env.OPENROUTER_API_KEY = true)
    (content : String) (rest : List Choice) (status : Nat)
    (hs : 200 ≤ status ∧ status < 300) (body query prompt topic : String) (words : Int) :
    (search_web env query (Except.ok
        { status_code := status, text := body,
          json := some { choices := { message := { content := content } } :: rest } })).ret
      = Except.ok (pyStrip content) ∧
    (generate_code env prompt (Except.ok
        { status_code := status, text := body,
          json := some { choices := { message := { content := content } } :: rest } })).ret
      = Except.ok (pyStrip content) ∧
    (write_essay env topic words (Except.ok
        { status_code := status, text := body,
          json := some { choices := { message := { content := content } } :: rest } })).ret
      = Except.ok (pyStrip content) := by
  have hr := chat_completion_first_content_ok content rest status (by omega) body
  refine ⟨?_, ?_, ?_⟩
  · unfold search_web
    rw [if_neg (by simp [hkey])]
    dsimp only
    rw [hr]
  · unfold generate_code
    rw [if_neg (by simp [hkey])]
    dsimp only
    rw [hr]
  · unfold write_essay
    rw [if_neg (by simp [hkey])]
    dsimp only
    rw [hr]

/-- Witness for C5: the mocked content " Paris is the capital. " comes back
trimmed from all three chat tools. -/
theorem C5_first_choice_content_witness :
    (search_web { OPENROUTER_API_KEY := some "k" } "capital of France" (Except.ok
        { status_code := 200, text := "",
          json := some { choices := [{ message := { content := " Paris is the capital. " } }] } })).ret
      = Except.ok "Paris is the capital." := by
  have h := (C5_first_choice_content { OPENROUTER_API_KEY := some "k" } rfl
    " Paris is the capital. " [] 200 (by omega) "" "capital of France" "p" "t" 500).1
  exact h.trans rfl

/-- C6: with credentials configured, `send_email` surfaces the three exception
categories as three pairwise distinct message texts — a fixed authentication
message, an SMTP message embedding the underlying detail, and a generic
message embedding the underlying detail — and success returns a confirmation
string naming the recipient. -/
theorem C6_email_failure_categories (env : Env)
    (hu : truthyOptStr env.GMAIL_USER = true)
    (hp : truthyOptStr env.GMAIL_APP_PASSWORD = true)
    (to_email subject message : String) (cc_email : Option String) :
    ((send_email env to_email subject message cc_email (Except.error PyExc.smtpAuthError)).ret
        = Except.ok "Email sending failed: Authentication error. Please check your Gmail credentials.") ∧
    (∀ d, (send_email env to_email subject message cc_email
          (Except.error (PyExc.smtpException d))).ret
        = Except.ok ("Email sending failed: SMTP error - " ++ d) ∧
      strContains ("Email sending failed: SMTP error - " ++ d) d) ∧
    (∀ d, (send_email env to_email subject message cc_email
          (Except.error (PyExc.otherError d))).ret
        = Except.ok ("An error occurred while sending email: " ++ d) ∧
      strContains ("An error occurred while sending email: " ++ d) d) ∧
    (∀ d, "Email sending failed: Authentication error. Please check your Gmail credentials."
        ≠ "Email sending failed: SMTP error - " ++ d) ∧
    (∀ d, "Email sending failed: Authentication error. Please check your Gmail credentials."
        ≠ "An error occurred while sending email: " ++ d) ∧
    (∀ d d', "Email sending failed: SMTP error - " ++ d
        ≠ "An error occurred while sending email: " ++ d') ∧
    ((send_email env to_email subject message cc_email (Except.ok ())).ret
        = Except.ok ("Email sent successfully to " ++ to_email) ∧
      strContains ("Email sent successfully to " ++ to_email) to_email) := by
  have hcred : ¬ (truthyOptStr env.GMAIL_USER = false ∨ truthyOptStr env.GMAIL_APP_PASSWORD = false) := by
    simp [hu, hp]
  refine ⟨?_, ?_, ?_, ?_, ?_, ?_, ?_⟩
  · unfold send_email
    rw [if_neg hcred]
  · intro d
    unfold send_email
    rw [if_neg hcred]
    exact ⟨rfl, strContains_append_right _ _⟩
  · intro d
    unfold send_email
    rw [if_neg hcred]
    exact ⟨rfl, strContains_append_right _ _⟩
  · intro d
    apply string_ne_of_data_getElem_ne _ _ 22
    rw [data_getElem_append_left "Email sending failed: SMTP error - " d 22 (by decide)]
    decide
  · intro d
    apply string_ne_of_data_getElem_ne _ _ 0
    rw [data_getElem_append_left "An error occurred while sending email: " d 0 (by decide)]
    decide
  · intro d d'
    apply string_ne_of_data_getElem_ne _ _ 0
    rw [data_getElem_append_left "Email sending failed: SMTP error - " d 0 (by decide),
        data_getElem_append_left "An error occurred while sending email: " d' 0 (by decide)]
    decide
  · unfold send_email
    rw [if_neg hcred]
    exact ⟨rfl, strContains_append_right _ _⟩

/-- Witness for C6: a mocked authentication failure with configured
credentials, and its distinctness from a generic SMTP failure text. -/
theorem C6_email_failure_categories_witness :
    (send_email { GMAIL_USER := some "user@gmail.com", GMAIL_APP_PASSWORD := some "pw" }
        "bob@example.com" "Hi" "Hello" none (Except.error PyExc.smtpAuthError)).ret
      = Except.ok "Email sending failed: Authentication error. Please check your Gmail credentials." ∧
    "Email sending failed: Authentication error. Please check your Gmail credentials."
      ≠ "Email sending failed: SMTP error - " ++ "connection unexpectedly closed" := by
  have h := C6_email_failure_categories
    { GMAIL_USER := some "user@gmail.com", GMAIL_APP_PASSWORD := some "pw" }
    rfl rfl "bob@example.com" "Hi" "Hello" none
  exact ⟨h.1, h.2.2.2.1 "connection unexpectedly closed"⟩

/-- C7: when the image response's first data item carries a non-empty base64
payload and decoding succeeds, `generate_ai_image` creates the per-user image
directory, writes exactly one file named `ai_image_<timestamp>.png` into it
(the timestamp being the second-granularity `timestamp_format` rendering of
the current time), and the returned success string contains that file's
path. -/
theorem C7_base64_writes_one_file (env : Env) (prompt : String)
    (hprompt : ¬ (prompt = "" ∨ (pyStrip prompt).length < 3))
    (hkey : truthyOptStr env.TOGETHER_API_KEY = true)
    (b64 : String) (hb64 : b64 ≠ "") (image_url : Option String) (rest : List ImageInfo)
    (home timestamp : String) :
    (generate_ai_image env prompt
        (Except.ok (some ({ b64_json := some b64, url := image_url } :: rest)))
        (Except.ok ()) home timestamp).filesWritten
      = [home ++ "/Pictures" ++ "/" ++ ("ai_image_" ++ timestamp ++ ".png")] ∧
    (generate_ai_image env prompt
        (Except.ok (some ({ b64_json := some b64, url := image_url } :: rest)))
        (Except.ok ()) home timestamp).dirsCreated
      = [home ++ "/Pictures"] ∧
    ∃ s, (generate_ai_image env prompt
        (Except.ok (some ({ b64_json := some b64, url := image_url } :: rest)))
        (Except.ok ()) home timestamp).ret = Except.ok (some s) ∧
      strContains s (home ++ "/Pictures" ++ "/" ++ ("ai_image_" ++ timestamp ++ ".png")) := by
  unfold generate_ai_image
  rw [if_neg hprompt, if_neg (by simp [hkey])]
  dsimp only
  rw [if_neg (show ¬ (truthyOptStr (some b64) = false ∧ truthyOptStr image_url = false) by
        simp [truthyOptStr, hb64]),
      if_pos (show truthyOptStr (some b64) = true by simp [truthyOptStr, hb64])]
  refine ⟨rfl, rfl, _, rfl, ?_⟩
  repeat (first | exact strContains_append_right _ _ | apply strContains_mono_right)

/-- Witness for C7 at a concrete base64 payload and timestamp. -/
theorem C7_base64_writes_one_file_witness :
    (generate_ai_image { TOGETHER_API_KEY := some "k" } "a red cat"
        (Except.ok (some [{ b64_json := some "aGVsbG8=" }]))
        (Except.ok ()) "/home/user" "20251012_120000").filesWritten
      = ["/home/user/Pictures/ai_image_20251012_120000.png"] := by
  have h := (C7_base64_writes_one_file { TOGETHER_API_KEY := some "k" } "a red cat"
    (by decide) rfl "aGVsbG8=" (by decide) none [] "/home/user" "20251012_120000").1
  exact h.trans rfl

/-- C8: when the image response's first data item carries a non-empty URL and
no usable base64 payload, `generate_ai_image` writes no file, creates no
directory, and returns a success string that embeds the given URL. -/
theorem C8_url_only_no_file (env : Env) (prompt : String)
    (hprompt : ¬ (prompt = "" ∨ (pyStrip prompt).length < 3))
    (hkey : truthyOptStr env.TOGETHER_API_KEY = true)
    (b64 : Option String) (hb64 : truthyOptStr b64 = false)
    (u : String) (hu : u ≠ "") (rest : List ImageInfo)
    (decode : Except PyExc Unit) (home timestamp : String) :
    (generate_ai_image env prompt
        (Except.ok (some ({ b64_json := b64, url := some u } :: rest)))
        decode home timestamp).filesWritten = [] ∧
    (generate_ai_image env prompt
        (Except.ok (some ({ b64_json := b64, url := some u } :: rest)))
        decode home timestamp).dirsCreated = [] ∧
    ∃ s, (generate_ai_image env prompt
        (Except.ok (some ({ b64_json := b64, url := some u } :: rest)))
        decode home timestamp).ret = Except.ok (some s) ∧
      strContains s u := by
  unfold generate_ai_image
  rw [if_neg hprompt, if_neg (by simp [hkey])]
  dsimp only
  rw [if_neg (show ¬ (truthyOptStr b64 = false ∧ truthyOptStr (some u) = false) by
        simp [truthyOptStr, hu]),
      if_neg (show ¬ truthyOptStr b64 = true by simp [hb64]),
      if_pos (show truthyOptStr (some u) = true by simp [truthyOptStr, hu])]
  refine ⟨rfl, rfl, _, rfl, ?_⟩
  dsimp only [Option.getD]
  repeat (first | exact strContains_append_right _ _ | apply strContains_mono_right)

/-- Witness for C8 at a concrete URL-only response. -/
theorem C8_url_only_no_file_witness :
    (generate_ai_image { TOGETHER_API_KEY := some "k" } "a red cat"
        (Except.ok (some [{ url := some "https://img.example/a.png" }]))
        (Except.ok ()) "/home/user" "20251012_120000").filesWritten = [] ∧
    strContains
      ("✅ Image generated successfully via URL!<br>🖼️ Preview:<br><img src=\"" ++
       "https://img.example/a.png" ++ "\" alt=\"" ++ "a red cat" ++
       "\" style=\"max-width:100%; border-radius:12px;\"/><br><a href=\"" ++
       "https://img.example/a.png" ++
       "\" download=\"ai_image.png\" style=\"display:inline-block;margin-top:10px;padding:8px 12px;background-color:#007bff;color:white;border-radius:6px;text-decoration:none;\">⬇ Download Image</a>")
      "https://img.example/a.png" := by
  have h := C8_url_only_no_file { TOGETHER_API_KEY := some "k" } "a red cat"
    (by decide) rfl none rfl "https://img.example/a.png" (by decide) []
    (Except.ok ()) "/home/user" "20251012_120000"
  refine ⟨h.1, ?_⟩
  repeat (first | exact strContains_append_right _ _ | apply strContains_mono_right)

/-- Helper: `generate_ai_image` never issues an HTTP request through the
`requests` library, and its image-generation SDK request, when issued, is the
fixed one, which passes no explicit timeout. -/
theorem generate_ai_image_requests (env : Env) (prompt : String)
    (gen : Except PyExc (Option (List ImageInfo))) (decode : Except PyExc Unit)
    (home timestamp : String) :
    (generate_ai_image env prompt gen decode home timestamp).httpRequests = [] ∧
    ((generate_ai_image env prompt gen decode home timestamp).imageRequests = [] ∨
     (generate_ai_image env prompt gen decode home timestamp).imageRequests
       = [{ prompt := pyStrip prompt, model := "black-forest-labs/FLUX.1-schnell-Free",
            steps := 4, n := 1, height := 1024, width := 1024 }]) := by
  unfold generate_ai_image
  split
  · exact ⟨rfl, Or.inl rfl⟩
  · split
    · exact ⟨rfl, Or.inl rfl⟩
    · cases gen with
      | error e => exact ⟨rfl, Or.inr rfl⟩
      | ok resp =>
        match resp with
        | none => exact ⟨rfl, Or.inr rfl⟩
        | some [] => exact ⟨rfl, Or.inr rfl⟩
        | some (image_info :: rest) =>
          dsimp only
          split
          · exact ⟨rfl, Or.inr rfl⟩
          · split
            · cases decode with
              | error e => exact ⟨rfl, Or.inr rfl⟩
              | ok u => exact ⟨rfl, Or.inr rfl⟩
            · split
              · exact ⟨rfl, Or.inr rfl⟩
              · exact ⟨rfl, Or.inr rfl⟩

/-- C9: among the outbound requests issued by the six tools, only the
code-generation request is constructed with an explicit timeout (30); the
weather, search and essay requests are constructed with no timeout,
`send_email` issues no HTTP request, and the image-generation SDK request
passes no explicit timeout either. -/
theorem C9_only_generate_code_has_timeout :
    (∀ city net r, r ∈ (get_weather city net).httpRequests → r.timeout = none) ∧
    (∀ env query net r, r ∈ (search_web env query net).httpRequests → r.timeout = none) ∧
    (∀ env topic words net r, r ∈ (write_essay env topic words net).httpRequests → r.timeout = none) ∧
    (∀ env prompt net r, r ∈ (generate_code env prompt net).httpRequests → r.timeout = some 30) ∧
    (∀ env prompt net, truthyOptStr env.OPENROUTER_API_KEY = true →
      (generate_code env prompt net).httpRequests ≠ []) ∧
    (∀ env to_email subject message cc_email smtp,
      (send_email env to_email subject message cc_email smtp).httpRequests = []) ∧
    (∀ env prompt gen decode home timestamp,
      (generate_ai_image env prompt gen decode home timestamp).httpRequests = [] ∧
      ∀ q, q ∈ (generate_ai_image env prompt gen decode home timestamp).imageRequests →
        ImageGenRequest.timeout q = none) := by
  refine ⟨?_, ?_, ?_, ?_, ?_, ?_, ?_⟩
  · intro city net r hr
    cases net with
    | error e =>
      simp only [get_weather, List.mem_singleton] at hr
      rw [hr]
    | ok resp =>
      unfold get_weather at hr
      dsimp only at hr
      split at hr <;> (simp only [List.mem_singleton] at hr; rw [hr])
  · intro env query net r hr
    unfold search_web at hr
    split at hr
    · simp at hr
    · simp only [List.mem_singleton] at hr
      rw [hr]
  · intro env topic words net r hr
    unfold write_essay at hr
    split at hr
    · simp at hr
    · simp only [List.mem_singleton] at hr
      rw [hr]
  · intro env prompt net r hr
    unfold generate_code at hr
    split at hr
    · simp at hr
    · simp only [List.mem_singleton] at hr
      rw [hr]
  · intro env prompt net h
    unfold generate_code
    rw [if_neg (by simp [h])]
    simp
  · intro env to_email subject message cc_email smtp
    unfold send_email
    split
    · rfl
    · rfl
  · intro env prompt gen decode home timestamp
    obtain ⟨hhttp, himg⟩ := generate_ai_image_requests env prompt gen decode home timestamp
    refine ⟨hhttp, ?_⟩
    intro q hq
    cases himg with
    | inl h =>
      rw [h] at hq
      simp at hq
    | inr h =>
      rw [h] at hq
      simp only [List.mem_singleton] at hq
      rw [hq]

/-- Witness for C9: the concrete code-generation request carries timeout 30,
and the tool does issue a request when the credential is present. -/
theorem C9_only_generate_code_has_timeout_witness :
    (generate_code { OPENROUTER_API_KEY := some "k" } "p"
        (Except.ok { status_code := 200, text := "" })).httpRequests ≠ [] ∧
    HttpRequest.timeout
      { method := "POST", url := openrouter_chat_url, timeout := some 30,
        systemContent := some "You are a professional senior software engineer. Write complete, well-documented code for the task.",
        userContent := some "p" } = some 30 := by
  refine ⟨C9_only_generate_code_has_timeout.2.2.2.2.1
    { OPENROUTER_API_KEY := some "k" } "p" (Except.ok { status_code := 200, text := "" }) rfl, ?_⟩
  exact C9_only_generate_code_has_timeout.2.2.2.1 { OPENROUTER_API_KEY := some "k" } "p"
    (Except.ok { status_code := 200, text := "" }) _ (by decide)
